import Mathlib

/-!
Shallow embedding of the authentication, throttling, session and
tenant-scoping logic of the Praxida practice-management server
(src/server.js, the iteration containing the `/api/auth/*` routes,
`requireAuth`, `requireRole`, `getClientById` and the login-attempt
ledger helpers).  Database rows are Lean structures, the SQLite tables
are lists, and each route handler / helper function is translated into
a pure Lean function over an explicit database state.
-/

namespace Praxida

/-- A row of the `praxis` table (tenant). -/
structure Praxis where
  id : Nat
  name : String
  is_active : Bool
deriving Repr, DecidableEq

/-- A row of the `users` table.  `email` is declared `TEXT UNIQUE NOT NULL`
in the schema, with SQLite's default BINARY (case-sensitive) collation. -/
structure UserRow where
  id : Nat
  praxis_id : Nat
  name : String
  email : String
  password_hash : String
  role : String
  is_active : Bool
deriving Repr, DecidableEq

/-- A row of the `clients` table (only the columns the claims touch). -/
structure Client where
  id : Nat
  praxis_id : Nat
  name : String
  is_archived : Bool
deriving Repr, DecidableEq

/-- A row of the `login_attempts` table.  `attempted_at` is a timestamp
in seconds. -/
structure LoginAttempt where
  email : String
  success : Bool
  ip_address : String
  user_agent : String
  attempted_at : Nat
deriving Repr, DecidableEq

/-- The SQLite database state: one list per table, plus the AUTOINCREMENT
counters used to produce `lastInsertRowid`. -/
structure DB where
  praxen : List Praxis
  users : List UserRow
  clients : List Client
  login_attempts : List LoginAttempt
  nextPraxisId : Nat
  nextUserId : Nat
deriving Repr, DecidableEq

/-- The result of `LEFT JOIN praxis p ON u.praxis_id = p.id`: the user row
together with `p.name as praxis_name` (NULL when no praxis row matches). -/
structure JoinedUser where
  id : Nat
  praxis_id : Nat
  name : String
  email : String
  password_hash : String
  role : String
  is_active : Bool
  praxis_name : Option String
deriving Repr, DecidableEq

/-- `LEFT JOIN praxis p ON u.praxis_id = p.id` for a single user row. -/
def praxisNameOf (db : DB) (praxis_id : Nat) : Option String :=
  (db.praxen.find? (fun p => p.id == praxis_id)).map (fun p => p.name)

def joinUser (db : DB) (u : UserRow) : JoinedUser :=
  ⟨u.id, u.praxis_id, u.name, u.email, u.password_hash, u.role, u.is_active,
    praxisNameOf db u.praxis_id⟩

/-- `getUserByEmail`: `WHERE u.email = ? AND u.is_active = 1`.
SQLite compares `email` with its default BINARY collation, so the match is
case-sensitive exact string equality. -/
def getUserByEmail (db : DB) (email : String) : Option JoinedUser :=
  (db.users.find? (fun u => u.email == email && u.is_active)).map (joinUser db)

/-- `getUserById`: `WHERE u.id = ? AND u.is_active = 1`. -/
def getUserById (db : DB) (id : Nat) : Option JoinedUser :=
  (db.users.find? (fun u => u.id == id && u.is_active)).map (joinUser db)

/-- `getPraxisByName`: `WHERE name = ? AND is_active = 1`. -/
def getPraxisByName (db : DB) (name : String) : Option Praxis :=
  db.praxen.find? (fun p => p.name == name && p.is_active)

/-- The default trailing window of `getRecentLoginAttempts`, in minutes. -/
def windowMinutes : Nat := 15

/-- One row satisfies the `getRecentLoginAttempts` WHERE clause:
`email = ? AND success = 0 AND attempted_at > datetime('now', '-15 minutes')`. -/
def isRecentFailure (now : Nat) (email : String) (a : LoginAttempt) : Bool :=
  a.email == email && !a.success && now < a.attempted_at + windowMinutes * 60

/-- `getRecentLoginAttempts`: `SELECT COUNT(*) ... WHERE email = ? AND
success = 0 AND attempted_at > datetime('now', '-15 minutes')`. -/
def getRecentLoginAttempts (db : DB) (email : String) (now : Nat) : Nat :=
  (db.login_attempts.filter (isRecentFailure now email)).length

def mkAttempt (email : String) (success : Bool) (ip ua : String) (now : Nat) :
    LoginAttempt :=
  ⟨email, success, ip, ua, now⟩

/-- Result of `createLoginAttempt`: the (possibly updated) database and the
`console.warn` messages emitted. -/
structure LedgerWrite where
  db : DB
  warnings : List String
deriving Repr, DecidableEq

/-- `createLoginAttempt`: INSERTs one row into `login_attempts`; the whole
body is wrapped in try/catch, so when the INSERT fails (`writeOk = false`)
the error is logged with `console.warn` and the function returns normally
with the database unchanged. -/
def createLoginAttempt (writeOk : Bool) (db : DB) (email : String)
    (success : Bool) (ip ua : String) (now : Nat) : LedgerWrite :=
  if writeOk then
    ⟨{ db with login_attempts := db.login_attempts ++ [mkAttempt email success ip ua now] }, []⟩
  else
    ⟨db, ["Fehler beim Speichern des Login-Versuchs:"]⟩

/-- Session payload stored by the login route in `req.session.user`. -/
structure SessionUser where
  id : Nat
  name : String
  email : String
  role : String
  praxis_id : Nat
  praxis_name : Option String
deriving Repr, DecidableEq

def toSessionUser (u : JoinedUser) : SessionUser :=
  ⟨u.id, u.name, u.email, u.role, u.praxis_id, u.praxis_name⟩

/-- Observable outcome of `POST /api/auth/login`: HTTP status, the `error`
field of the JSON body (absent on success), the `success` flag, the session
user installed on success, the resulting database, how many times
`bcrypt.compare` was invoked, and the `console.warn` output. -/
structure LoginRes where
  status : Nat
  errorMsg : Option String
  success : Bool
  sessionUser : Option SessionUser
  db : DB
  compareCalls : Nat
  warnings : List String
deriving Repr, DecidableEq

/-- `POST /api/auth/login`.  `compare` stands for `bcrypt.compare`
(password against stored hash); `writeOk` tells whether the ledger INSERT
inside `createLoginAttempt` succeeds.  An absent body field arrives as the
falsy `""`.  The praxis hint check is JS
`praxis_name && user.praxis_name !== praxis_name`, where a NULL
`user.praxis_name` is `!==` any string. -/
def login (compare : String → String → Bool) (writeOk : Bool) (db : DB)
    (now : Nat) (email password praxisHint ip ua : String) : LoginRes :=
  if email == "" || password == "" then
    ⟨400, some "E-Mail und Passwort sind erforderlich", false, none, db, 0, []⟩
  else if 5 ≤ getRecentLoginAttempts db email now then
    let w := createLoginAttempt writeOk db email false ip ua now
    ⟨429, some "Account temporär gesperrt. Zu viele fehlgeschlagene Login-Versuche.",
      false, none, w.db, 0, w.warnings⟩
  else
    match getUserByEmail db email with
    | none =>
      let w := createLoginAttempt writeOk db email false ip ua now
      ⟨401, some "Ungültige Anmeldedaten", false, none, w.db, 0, w.warnings⟩
    | some user =>
      if !(compare password user.password_hash) then
        let w := createLoginAttempt writeOk db email false ip ua now
        ⟨401, some "Ungültige Anmeldedaten", false, none, w.db, 1, w.warnings⟩
      else if praxisHint != "" &&
          (match user.praxis_name with
           | some pn => pn != praxisHint
           | none => true) then
        let w := createLoginAttempt writeOk db email false ip ua now
        ⟨401, some "Benutzer gehört nicht zu der angegebenen Praxis",
          false, none, w.db, 1, w.warnings⟩
      else
        let w := createLoginAttempt writeOk db email true ip ua now
        ⟨200, none, true, some (toSessionUser user), w.db, 1, w.warnings⟩

/-- Outcome of the `requireAuth` middleware: either a short-circuiting JSON
rejection (status, `error` message, `code` field) or `proceed` into the
downstream handler with `req.user` set. -/
inductive GuardRes where
  | reject (status : Nat) (errorMsg : String) (code : Option String)
  | proceed (u : JoinedUser)
deriving Repr, DecidableEq

/-- `requireAuth`: checks `req.session?.user`, re-fetches the user with
`getUserById` (active users only), calls `req.session.destroy()` when the
user is gone, and only then invokes `next()`.  Returns the outcome together
with the session state after the call (`none` = destroyed / absent). -/
def requireAuth (db : DB) (sess : Option SessionUser) :
    GuardRes × Option SessionUser :=
  match sess with
  | none =>
    (.reject 401 "Authentifizierung erforderlich" (some "AUTH_REQUIRED"), none)
  | some su =>
    match getUserById db su.id with
    | none =>
      (.reject 401 "Benutzer nicht mehr vorhanden" (some "USER_NOT_FOUND"), none)
    | some u => (.proceed u, some su)

/-- Outcome of the `requireRole(...roles)` middleware.  The `forbidden`
constructor carries the response body fields `error`, `required_roles` and
`user_role` verbatim. -/
inductive RoleRes where
  | unauthorized (status : Nat) (errorMsg : String)
  | forbidden (status : Nat) (errorMsg : String)
      (required_roles : List String) (user_role : String)
  | next (u : JoinedUser)
deriving Repr, DecidableEq

/-- `requireRole(...roles)`: 401 without `req.user`, 403 with the required
roles and the caller's role in the body when `!roles.includes(req.user.role)`,
otherwise `next()`. -/
def requireRole (roles : List String) (reqUser : Option JoinedUser) : RoleRes :=
  match reqUser with
  | none => .unauthorized 401 "Authentifizierung erforderlich"
  | some u =>
    if roles.contains u.role then .next u
    else .forbidden 403 "Insufficient permissions" roles u.role

/-- `getClientById(id, userPraxisId)`: `WHERE c.id = ? AND c.is_archived = 0`,
then JS `if (client && userPraxisId && client.praxis_id !== userPraxisId)
return null`.  A `userPraxisId` of 0 is falsy in JS and skips the tenant
check, matching the source's truthiness test. -/
def getClientById (db : DB) (id : Nat) (userPraxisId : Option Nat) :
    Option Client :=
  match db.clients.find? (fun c => c.id == id && !c.is_archived) with
  | none => none
  | some c =>
    match userPraxisId with
    | some p => if p != 0 && c.praxis_id != p then none else some c
    | none => some c

/-- A JSON response of the client routes: a client record or an error body. -/
inductive ApiRes where
  | json (status : Nat) (c : Client)
  | err (status : Nat) (errorMsg : String)
deriving Repr, DecidableEq

/-- `GET /api/clients/:id`: calls `getClientById(req.params.id,
req.user.praxis_id)` and answers 404 `Client nicht gefunden` when it
returns nothing. -/
def clientByIdRoute (db : DB) (userPraxisId : Nat) (id : Nat) : ApiRes :=
  match getClientById db id (some userPraxisId) with
  | none => .err 404 "Client nicht gefunden"
  | some c => .json 200 c

/-- JS `\s` whitespace (the ASCII part used by the email regex). -/
def isJsWhitespace (c : Char) : Bool :=
  c = ' ' || c = '\t' || c = '\n' || c = '\r' || c = '\x0b' || c = '\x0c'

/-- A character allowed by `[^\s@]` in the registration email regex. -/
def emailCharOk (c : Char) : Bool :=
  !(isJsWhitespace c) && c != '@'

/-- `emailRegex.test`: the regex `^[^\s@]+@[^\s@]+\.[^\s@]+$` — exactly one
`@`, a nonempty whitespace-free local part, and a whitespace-free domain
containing a dot at a position that is neither first nor last. -/
def emailRegexTest (s : String) : Bool :=
  let l := s.toList
  l.count '@' == 1 &&
    (let loc := l.takeWhile (fun c => c != '@')
     let dom := (l.dropWhile (fun c => c != '@')).drop 1
     (!loc.isEmpty && loc.all emailCharOk) &&
       (dom.all emailCharOk && ((dom.drop 1).dropLast).contains '.'))

/-- `addPraxis`: INSERT INTO `praxis`, returning `lastInsertRowid`. -/
def addPraxis (db : DB) (name : String) : DB × Nat :=
  let pid := db.nextPraxisId
  ({ db with praxen := db.praxen ++ [⟨pid, name, true⟩],
             nextPraxisId := pid + 1 }, pid)

/-- The CHECK constraint on `users.role` in the schema. -/
def dbRoles : List String :=
  ["admin", "therapeut", "assistenz", "praktikant", "extern"]

/-- `addUser`: INSERT INTO `users`.  The schema declares
`email TEXT UNIQUE NOT NULL` (BINARY collation, so uniqueness is
case-sensitive and covers inactive rows too) and a CHECK constraint on
`role`; a violated constraint makes the INSERT throw. -/
def addUser (db : DB) (praxis_id : Nat) (name email password_hash role : String) :
    Except String (DB × Nat) :=
  if db.users.any (fun u => u.email == email) then
    .error "UNIQUE constraint failed: users.email"
  else if !(dbRoles.contains role) then
    .error "CHECK constraint failed: role"
  else
    let uid := db.nextUserId
    .ok ({ db with
            users := db.users ++ [⟨uid, praxis_id, name, email, password_hash, role, true⟩],
            nextUserId := uid + 1 }, uid)

/-- Observable outcome of the two user-creating routes. -/
structure RegRes where
  status : Nat
  errorMsg : Option String
  success : Bool
  praxis_id : Option Nat
  user_id : Option Nat
  db : DB
deriving Repr, DecidableEq

/-- `POST /api/auth/register-praxis`.  `hash` stands for `bcrypt.hash`;
absent body fields arrive as the falsy `""`.  The thrown UNIQUE/CHECK
error of `addUser` is caught by the route's try/catch and answered with
status 500 — note the praxis row inserted just before remains. -/
def registerPraxis (hash : String → String) (db : DB)
    (praxis_name admin_name admin_email admin_password : String) : RegRes :=
  if praxis_name == "" || admin_name == "" || admin_email == "" ||
      admin_password == "" then
    ⟨400, some "Alle Pflichtfelder müssen ausgefüllt werden", false, none, none, db⟩
  else if admin_password.length < 8 then
    ⟨400, some "Passwort muss mindestens 8 Zeichen lang sein", false, none, none, db⟩
  else if !(emailRegexTest admin_email) then
    ⟨400, some "Ungültige E-Mail-Adresse", false, none, none, db⟩
  else if (getPraxisByName db praxis_name).isSome then
    ⟨400, some "Praxis-Name bereits vergeben", false, none, none, db⟩
  else if (getUserByEmail db admin_email).isSome then
    ⟨400, some "E-Mail-Adresse bereits registriert", false, none, none, db⟩
  else
    let pr := addPraxis db praxis_name
    match addUser pr.1 pr.2 admin_name admin_email (hash admin_password) "admin" with
    | .error e =>
      ⟨500, some ("Fehler bei der Registrierung: " ++ e), false, none, none, pr.1⟩
    | .ok (db2, uid) => ⟨200, none, true, some pr.2, some uid, db2⟩

/-- The roles `POST /api/auth/add-user` accepts. -/
def allowedAddRoles : List String := ["admin", "therapeut", "assistenz"]

/-- `POST /api/auth/add-user` (behind `requireAuth, requireRole('admin')`):
validates the body, checks for an existing active user with the same email
via `getUserByEmail`, and inserts the new user into the admin's praxis. -/
def addUserRoute (hash : String → String) (db : DB) (adminPraxisId : Nat)
    (name email password role : String) : RegRes :=
  if name == "" || email == "" || password == "" || role == "" then
    ⟨400, some "Alle Felder sind erforderlich", false, none, none, db⟩
  else if !(allowedAddRoles.contains role) then
    ⟨400, some "Ungültige Rolle", false, none, none, db⟩
  else if password.length < 8 then
    ⟨400, some "Passwort muss mindestens 8 Zeichen lang sein", false, none, none, db⟩
  else if (getUserByEmail db email).isSome then
    ⟨400, some "E-Mail-Adresse bereits registriert", false, none, none, db⟩
  else
    match addUser db adminPraxisId name email (hash password) role with
    | .error e =>
      ⟨500, some ("Fehler beim Hinzufügen des Benutzers: " ++ e), false, none, none, db⟩
    | .ok (db2, uid) => ⟨200, none, true, none, some uid, db2⟩

/-- Modelled from the spec: a Session Manager record — the repository
source under `src/` has no explicit session table of its own (sessions live
in `connect-sqlite3`'s store) and no `POST /auth/change-secret` route, so
the session records and the secret-change operation are modelled from
spec sections 4.4 and 6. -/
structure SessRec where
  sid : Nat
  user_id : Nat
deriving Repr, DecidableEq

/-- Modelled from the spec: the Session Manager's durable backing store. -/
structure SessStore where
  recs : List SessRec
deriving Repr, DecidableEq

/-- Modelled from the spec: `validate(sessionId)` — looks up the record and
returns `SessionInvalid` when it is absent. -/
inductive ValidateRes where
  | ok (r : SessRec)
  | sessionInvalid
deriving Repr, DecidableEq

def validateSession (st : SessStore) (sid : Nat) : ValidateRes :=
  match st.recs.find? (fun r => r.sid == sid) with
  | some r => .ok r
  | none => .sessionInvalid

/-- Modelled from the spec: result of `POST /auth/change-secret`. -/
structure ChangeSecretRes where
  success : Bool
  users : List UserRow
  store : SessStore
deriving Repr, DecidableEq

/-- Modelled from the spec: `POST /auth/change-secret`, absent from
`src/server.js`.  Per spec sections 4.1, 4.4 and 6: `changeSecret`
re-verifies the old secret against the stored hash, and on success stores
the new hash and `revokeAll`s every session of the user other than the one
performing the change. -/
def changeSecret (compare : String → String → Bool) (hash : String → String)
    (users : List UserRow) (st : SessStore) (currentSid : Nat)
    (oldSecret newSecret : String) : ChangeSecretRes :=
  match validateSession st currentSid with
  | .sessionInvalid => ⟨false, users, st⟩
  | .ok r =>
    match users.find? (fun u => u.id == r.user_id && u.is_active) with
    | none => ⟨false, users, st⟩
    | some u =>
      if compare oldSecret u.password_hash then
        ⟨true,
         users.map (fun v =>
           if v.id == u.id then { v with password_hash := hash newSecret } else v),
         ⟨st.recs.filter (fun s => s.user_id != u.id || s.sid == currentSid)⟩⟩
      else ⟨false, users, st⟩

/-! Concrete fixtures used to exercise the definitions. -/

/-- A concrete stand-in for `bcrypt.compare`: the hash of `p` is `"hash-" ++ p`. -/
def cmpEx (p h : String) : Bool := h == "hash-" ++ p

/-- A concrete stand-in for `bcrypt.hash`. -/
def hashEx (p : String) : String := "hash-" ++ p

def prA : Praxis := ⟨1, "Praxis A", true⟩

def uA : UserRow := ⟨1, 1, "Admin", "admin@a.de", "hash-pw", "admin", true⟩

/-- A deactivated user row (soft-deleted, `is_active = 0`). -/
def uAlt : UserRow := ⟨2, 1, "Alt", "alt@a.de", "hash-geheim", "admin", false⟩

def failedAttemptAt (t : Nat) : LoginAttempt := ⟨"admin@a.de", false, "ip", "ua", t⟩

def dbFresh : DB := ⟨[prA], [uA], [], [], 2, 2⟩

/-- `dbFresh` plus five recent failed attempts against `admin@a.de`. -/
def dbLocked : DB :=
  ⟨[prA], [uA], [],
   [failedAttemptAt 100, failedAttemptAt 110, failedAttemptAt 120,
    failedAttemptAt 130, failedAttemptAt 140], 2, 2⟩

/-- `dbFresh` plus the deactivated user `uAlt`. -/
def dbWithInactive : DB := ⟨[prA], [uA, uAlt], [], [], 2, 3⟩

/-- Two tenants with one client each, for the tenant-scoping claims. -/
def dbTwoTenants : DB :=
  ⟨[prA, ⟨2, "Praxis B", true⟩], [uA], [⟨7, 2, "K", false⟩], [], 3, 2⟩

/-! Branch lemmas for `login`, one per exit path of the handler. -/

theorem login_bad_body (compare : String → String → Bool) (writeOk : Bool)
    (db : DB) (now : Nat) (email password praxisHint ip ua : String)
    (h : (email == "" || password == "") = true) :
    login compare writeOk db now email password praxisHint ip ua =
      ⟨400, some "E-Mail und Passwort sind erforderlich", false, none, db, 0, []⟩ := by
  unfold login
  rw [if_pos h]

theorem login_locked (compare : String → String → Bool) (writeOk : Bool)
    (db : DB) (now : Nat) (email password praxisHint ip ua : String)
    (h1 : (email == "" || password == "") = false)
    (h2 : 5 ≤ getRecentLoginAttempts db email now) :
    login compare writeOk db now email password praxisHint ip ua =
      ⟨429, some "Account temporär gesperrt. Zu viele fehlgeschlagene Login-Versuche.",
       false, none, (createLoginAttempt writeOk db email false ip ua now).db, 0,
       (createLoginAttempt writeOk db email false ip ua now).warnings⟩ := by
  unfold login
  rw [if_neg (by simp [h1]), if_pos h2]

theorem login_no_user (compare : String → String → Bool) (writeOk : Bool)
    (db : DB) (now : Nat) (email password praxisHint ip ua : String)
    (h1 : (email == "" || password == "") = false)
    (h2 : ¬ 5 ≤ getRecentLoginAttempts db email now)
    (hu : getUserByEmail db email = none) :
    login compare writeOk db now email password praxisHint ip ua =
      ⟨401, some "Ungültige Anmeldedaten", false, none,
       (createLoginAttempt writeOk db email false ip ua now).db, 0,
       (createLoginAttempt writeOk db email false ip ua now).warnings⟩ := by
  unfold login
  rw [if_neg (by simp [h1]), if_neg h2, hu]

theorem login_bad_password (compare : String → String → Bool) (writeOk : Bool)
    (db : DB) (now : Nat) (email password praxisHint ip ua : String) (u : JoinedUser)
    (h1 : (email == "" || password == "") = false)
    (h2 : ¬ 5 ≤ getRecentLoginAttempts db email now)
    (hu : getUserByEmail db email = some u)
    (h3 : compare password u.password_hash = false) :
    login compare writeOk db now email password praxisHint ip ua =
      ⟨401, some "Ungültige Anmeldedaten", false, none,
       (createLoginAttempt writeOk db email false ip ua now).db, 1,
       (createLoginAttempt writeOk db email false ip ua now).warnings⟩ := by
  unfold login
  rw [if_neg (by simp [h1]), if_neg h2, hu]
  simp [h3]

theorem login_hint_mismatch (compare : String → String → Bool) (writeOk : Bool)
    (db : DB) (now : Nat) (email password praxisHint ip ua : String) (u : JoinedUser)
    (h1 : (email == "" || password == "") = false)
    (h2 : ¬ 5 ≤ getRecentLoginAttempts db email now)
    (hu : getUserByEmail db email = some u)
    (h3 : compare password u.password_hash = true)
    (h4 : praxisHint ≠ "")
    (h5 : u.praxis_name ≠ some praxisHint) :
    login compare writeOk db now email password praxisHint ip ua =
      ⟨401, some "Benutzer gehört nicht zu der angegebenen Praxis", false, none,
       (createLoginAttempt writeOk db email false ip ua now).db, 1,
       (createLoginAttempt writeOk db email false ip ua now).warnings⟩ := by
  unfold login
  rw [if_neg (by simp [h1]), if_neg h2, hu]
  have hmatch : (match u.praxis_name with
      | some pn => pn != praxisHint
      | none => true) = true := by
    cases hpn : u.praxis_name with
    | none => rfl
    | some pn =>
      simp only [bne_iff_ne, ne_eq, decide_eq_true_eq]
      intro hEq
      exact h5 (by rw [hpn, hEq])
  simp [h3, hmatch, h4]

theorem login_ok (compare : String → String → Bool) (writeOk : Bool)
    (db : DB) (now : Nat) (email password praxisHint ip ua : String) (u : JoinedUser)
    (h1 : (email == "" || password == "") = false)
    (h2 : ¬ 5 ≤ getRecentLoginAttempts db email now)
    (hu : getUserByEmail db email = some u)
    (h3 : compare password u.password_hash = true)
    (h4 : praxisHint = "" ∨ u.praxis_name = some praxisHint) :
    login compare writeOk db now email password praxisHint ip ua =
      ⟨200, none, true, some (toSessionUser u),
       (createLoginAttempt writeOk db email true ip ua now).db, 1,
       (createLoginAttempt writeOk db email true ip ua now).warnings⟩ := by
  unfold login
  rw [if_neg (by simp [h1]), if_neg h2, hu]
  have hcond : (praxisHint != "" &&
      (match u.praxis_name with
       | some pn => pn != praxisHint
       | none => true)) = false := by
    rcases h4 with h4 | h4
    · simp [h4]
    · rw [h4]
      simp
  simp [h3, hcond]

/-- C1: once an identity has at least 5 recorded failed attempts inside the
trailing 15-minute window, `POST /api/auth/login` rejects immediately:
`bcrypt.compare` is never invoked (`compareCalls = 0`, and the whole outcome
is independent of the compare oracle, so a correct secret changes nothing),
the rejection itself is appended to the ledger as a new failed attempt, and
once the window no longer contains 5 failures a correct-credential login
succeeds again. -/
theorem c1_lockout (compare : String → String → Bool) (writeOk : Bool)
    (db : DB) (now : Nat) (email password praxisHint ip ua : String)
    (hemail : email ≠ "") (hpw : password ≠ "")
    (hlock : 5 ≤ getRecentLoginAttempts db email now) :
    (login compare writeOk db now email password praxisHint ip ua).status = 429 ∧
    (login compare writeOk db now email password praxisHint ip ua).success = false ∧
    (login compare writeOk db now email password praxisHint ip ua).compareCalls = 0 ∧
    (login compare true db now email password praxisHint ip ua).db.login_attempts
      = db.login_attempts ++ [mkAttempt email false ip ua now] ∧
    (∀ compare2, login compare2 writeOk db now email password praxisHint ip ua
      = login compare writeOk db now email password praxisHint ip ua) ∧
    (∀ now2 u, getRecentLoginAttempts db email now2 < 5 →
      getUserByEmail db email = some u →
      compare password u.password_hash = true →
      (login compare writeOk db now2 email password "" ip ua).success = true) := by
  have h1 : (email == "" || password == "") = false := by
    simp [hemail, hpw]
  have hlk := login_locked compare writeOk db now email password praxisHint ip ua h1 hlock
  refine ⟨?_, ?_, ?_, ?_, ?_, ?_⟩
  · rw [hlk]
  · rw [hlk]
  · rw [hlk]
  · rw [login_locked compare true db now email password praxisHint ip ua h1 hlock]
    simp [createLoginAttempt]
  · intro compare2
    rw [hlk, login_locked compare2 writeOk db now email password praxisHint ip ua h1 hlock]
  · intro now2 u hlt hu hcmp
    rw [login_ok compare writeOk db now2 email password "" ip ua u h1
      (Nat.not_le.mpr hlt) hu hcmp (Or.inl rfl)]

/-- Witness for C1 at a concrete locked state. -/
theorem c1_lockout_witness :
    ("admin@a.de" : String) ≠ "" ∧ ("pw" : String) ≠ "" ∧
    5 ≤ getRecentLoginAttempts dbLocked "admin@a.de" 200 ∧
    (login cmpEx true dbLocked 200 "admin@a.de" "pw" "" "ip" "ua").status = 429 :=
  ⟨by decide, by decide, by decide,
   (c1_lockout cmpEx true dbLocked 200 "admin@a.de" "pw" "" "ip" "ua"
     (by decide) (by decide) (by decide)).1⟩

/-- C3 counterexample: for the same identity `admin@a.de`, the lockout
rejection is `429` with a dedicated lockout message while the
invalid-credentials rejection is `401` with `Ungültige Anmeldedaten` —
the two response shapes differ, so the claim is false. -/
theorem c3_counterexample :
    (login cmpEx true dbLocked 200 "admin@a.de" "pw" "" "ip" "ua").status = 429 ∧
    (login cmpEx true dbLocked 200 "admin@a.de" "pw" "" "ip" "ua").errorMsg =
      some "Account temporär gesperrt. Zu viele fehlgeschlagene Login-Versuche." ∧
    (login cmpEx true dbFresh 200 "admin@a.de" "falsch" "" "ip" "ua").status = 401 ∧
    (login cmpEx true dbFresh 200 "admin@a.de" "falsch" "" "ip" "ua").errorMsg =
      some "Ungültige Anmeldedaten" ∧
    ¬((login cmpEx true dbLocked 200 "admin@a.de" "pw" "" "ip" "ua").status =
      (login cmpEx true dbFresh 200 "admin@a.de" "falsch" "" "ip" "ua").status ∧
      (login cmpEx true dbLocked 200 "admin@a.de" "pw" "" "ip" "ua").errorMsg =
      (login cmpEx true dbFresh 200 "admin@a.de" "falsch" "" "ip" "ua").errorMsg) := by
  decide

/-- C3 amended: the two rejections are distinguishable — a locked-out
identity receives HTTP 429 with the lockout message, while a wrong secret
or unknown email receives HTTP 401 with `Ungültige Anmeldedaten`; status
codes and bodies both differ. -/
theorem c3_amended (compare : String → String → Bool) (writeOk : Bool)
    (db : DB) (now : Nat) (email password ip ua : String)
    (hemail : email ≠ "") (hpw : password ≠ "") :
    (5 ≤ getRecentLoginAttempts db email now →
      (login compare writeOk db now email password "" ip ua).status = 429 ∧
      (login compare writeOk db now email password "" ip ua).errorMsg =
        some "Account temporär gesperrt. Zu viele fehlgeschlagene Login-Versuche.") ∧
    (¬ 5 ≤ getRecentLoginAttempts db email now →
      getUserByEmail db email = none →
      (login compare writeOk db now email password "" ip ua).status = 401 ∧
      (login compare writeOk db now email password "" ip ua).errorMsg =
        some "Ungültige Anmeldedaten") ∧
    (∀ u, ¬ 5 ≤ getRecentLoginAttempts db email now →
      getUserByEmail db email = some u →
      compare password u.password_hash = false →
      (login compare writeOk db now email password "" ip ua).status = 401 ∧
      (login compare writeOk db now email password "" ip ua).errorMsg =
        some "Ungültige Anmeldedaten") ∧
    (429 : Nat) ≠ 401 ∧
    ("Account temporär gesperrt. Zu viele fehlgeschlagene Login-Versuche." : String) ≠
      "Ungültige Anmeldedaten" := by
  have h1 : (email == "" || password == "") = false := by
    simp [hemail, hpw]
  refine ⟨?_, ?_, ?_, by decide, by decide⟩
  · intro hlock
    rw [login_locked compare writeOk db now email password "" ip ua h1 hlock]
    exact ⟨rfl, rfl⟩
  · intro hnl hu
    rw [login_no_user compare writeOk db now email password "" ip ua h1 hnl hu]
    exact ⟨rfl, rfl⟩
  · intro u hnl hu hcmp
    rw [login_bad_password compare writeOk db now email password "" ip ua u h1 hnl hu hcmp]
    exact ⟨rfl, rfl⟩

/-- Witness for C3 amended at a concrete locked state. -/
theorem c3_amended_witness :
    ("admin@a.de" : String) ≠ "" ∧ ("pw" : String) ≠ "" ∧
    5 ≤ getRecentLoginAttempts dbLocked "admin@a.de" 200 ∧
    (login cmpEx true dbLocked 200 "admin@a.de" "pw" "" "ip" "ua").status = 429 ∧
    (login cmpEx true dbLocked 200 "admin@a.de" "pw" "" "ip" "ua").errorMsg =
      some "Account temporär gesperrt. Zu viele fehlgeschlagene Login-Versuche." :=
  ⟨by decide, by decide, by decide,
   (c3_amended cmpEx true dbLocked 200 "admin@a.de" "pw" "ip" "ua"
     (by decide) (by decide)).1 (by decide)⟩

/-- C4: a client record belonging to another tenant and a nonexistent
client id produce the identical `404 Client nicht gefunden` response from
`GET /api/clients/:id`. -/
theorem c4_cross_tenant_404 (db : DB) (upid cid badId : Nat) (c : Client)
    (hup : upid ≠ 0)
    (hc : db.clients.find? (fun x => x.id == cid && !x.is_archived) = some c)
    (hcross : c.praxis_id ≠ upid)
    (hbad : db.clients.find? (fun x => x.id == badId && !x.is_archived) = none) :
    clientByIdRoute db upid cid = ApiRes.err 404 "Client nicht gefunden" ∧
    clientByIdRoute db upid badId = ApiRes.err 404 "Client nicht gefunden" ∧
    clientByIdRoute db upid cid = clientByIdRoute db upid badId := by
  have h1 : clientByIdRoute db upid cid = ApiRes.err 404 "Client nicht gefunden" := by
    unfold clientByIdRoute getClientById
    rw [hc]
    simp [hup, hcross]
  have h2 : clientByIdRoute db upid badId = ApiRes.err 404 "Client nicht gefunden" := by
    unfold clientByIdRoute getClientById
    rw [hbad]
  exact ⟨h1, h2, by rw [h1, h2]⟩

/-- Witness for C4: tenant 1 requesting tenant 2's client id 7 versus the
nonexistent id 99. -/
theorem c4_cross_tenant_404_witness :
    (1 : Nat) ≠ 0 ∧
    dbTwoTenants.clients.find? (fun x => x.id == 7 && !x.is_archived) =
      some ⟨7, 2, "K", false⟩ ∧
    (⟨7, 2, "K", false⟩ : Client).praxis_id ≠ 1 ∧
    dbTwoTenants.clients.find? (fun x => x.id == 99 && !x.is_archived) = none ∧
    clientByIdRoute dbTwoTenants 1 7 = ApiRes.err 404 "Client nicht gefunden" :=
  ⟨by decide, by decide, by decide, by decide,
   (c4_cross_tenant_404 dbTwoTenants 1 7 99 ⟨7, 2, "K", false⟩
     (by decide) (by decide) (by decide) (by decide)).1⟩

/-- C5: a request whose session is bound to a user that `getUserById`
(which filters on `is_active = 1`) no longer returns is rejected with the
401 error, the session is destroyed (`none`), and the downstream handler is
never invoked. -/
theorem c5_stale_session (db : DB) (su : SessionUser)
    (h : getUserById db su.id = none) :
    requireAuth db (some su) =
      (GuardRes.reject 401 "Benutzer nicht mehr vorhanden" (some "USER_NOT_FOUND"),
       none) ∧
    ∀ u, (requireAuth db (some su)).1 ≠ GuardRes.proceed u := by
  have h1 : requireAuth db (some su) =
      (GuardRes.reject 401 "Benutzer nicht mehr vorhanden" (some "USER_NOT_FOUND"),
       none) := by
    simp only [requireAuth, h]
  refine ⟨h1, fun u => ?_⟩
  rw [h1]
  simp

/-- Witness for C5: a session bound to the deactivated user `uAlt`. -/
theorem c5_stale_session_witness :
    getUserById dbWithInactive 2 = none ∧
    requireAuth dbWithInactive (some ⟨2, "Alt", "alt@a.de", "admin", 1, some "Praxis A"⟩) =
      (GuardRes.reject 401 "Benutzer nicht mehr vorhanden" (some "USER_NOT_FOUND"),
       none) :=
  ⟨by decide,
   (c5_stale_session dbWithInactive ⟨2, "Alt", "alt@a.de", "admin", 1, some "Praxis A"⟩
     (by decide)).1⟩

theorem login_hint_cond_true (compare : String → String → Bool) (writeOk : Bool)
    (db : DB) (now : Nat) (email password praxisHint ip ua : String) (u : JoinedUser)
    (h1 : (email == "" || password == "") = false)
    (h2 : ¬ 5 ≤ getRecentLoginAttempts db email now)
    (hu : getUserByEmail db email = some u)
    (h3 : compare password u.password_hash = true)
    (h4 : (praxisHint != "" &&
      (match u.praxis_name with
       | some pn => pn != praxisHint
       | none => true)) = true) :
    login compare writeOk db now email password praxisHint ip ua =
      ⟨401, some "Benutzer gehört nicht zu der angegebenen Praxis", false, none,
       (createLoginAttempt writeOk db email false ip ua now).db, 1,
       (createLoginAttempt writeOk db email false ip ua now).warnings⟩ := by
  unfold login
  rw [if_neg (by simp [h1]), if_neg h2, hu]
  simp [h3, h4]

theorem login_hint_cond_false (compare : String → String → Bool) (writeOk : Bool)
    (db : DB) (now : Nat) (email password praxisHint ip ua : String) (u : JoinedUser)
    (h1 : (email == "" || password == "") = false)
    (h2 : ¬ 5 ≤ getRecentLoginAttempts db email now)
    (hu : getUserByEmail db email = some u)
    (h3 : compare password u.password_hash = true)
    (h4 : (praxisHint != "" &&
      (match u.praxis_name with
       | some pn => pn != praxisHint
       | none => true)) = false) :
    login compare writeOk db now email password praxisHint ip ua =
      ⟨200, none, true, some (toSessionUser u),
       (createLoginAttempt writeOk db email true ip ua now).db, 1,
       (createLoginAttempt writeOk db email true ip ua now).warnings⟩ := by
  unfold login
  rw [if_neg (by simp [h1]), if_neg h2, hu]
  simp [h3, h4]

/-- C6 counterexample: `admin@a.de` is a registered active user and `pw` is
the correct secret, yet submitting the same email as `Admin@a.de` (only the
letter case differs) is rejected as invalid credentials, because
`getUserByEmail` matches the email case-sensitively. -/
theorem c6_counterexample :
    getUserByEmail dbFresh "admin@a.de" = some (joinUser dbFresh uA) ∧
    cmpEx "pw" uA.password_hash = true ∧
    "Admin@a.de".toList.map Char.toLower = "admin@a.de".toList ∧
    getUserByEmail dbFresh "Admin@a.de" = none ∧
    (login cmpEx true dbFresh 200 "Admin@a.de" "pw" "" "ip" "ua").success = false ∧
    (login cmpEx true dbFresh 200 "Admin@a.de" "pw" "" "ip" "ua").status = 401 ∧
    (login cmpEx true dbFresh 200 "Admin@a.de" "pw" "" "ip" "ua").errorMsg =
      some "Ungültige Anmeldedaten" := by
  decide

/-- C6 amended: credential verification at login locates the user by
case-sensitive exact email match among active users; with the email in
exactly its stored case, a correct secret succeeds and a wrong secret fails
with the generic invalid-credentials response. -/
theorem c6_amended (compare : String → String → Bool) (writeOk : Bool)
    (db : DB) (now : Nat) (email pw ip ua : String) (u : JoinedUser)
    (hemail : email ≠ "") (hpw : pw ≠ "")
    (hnl : getRecentLoginAttempts db email now < 5)
    (hu : getUserByEmail db email = some u) :
    (compare pw u.password_hash = true →
      (login compare writeOk db now email pw "" ip ua).success = true ∧
      (login compare writeOk db now email pw "" ip ua).status = 200) ∧
    (compare pw u.password_hash = false →
      (login compare writeOk db now email pw "" ip ua).success = false ∧
      (login compare writeOk db now email pw "" ip ua).status = 401 ∧
      (login compare writeOk db now email pw "" ip ua).errorMsg =
        some "Ungültige Anmeldedaten") := by
  have h1 : (email == "" || pw == "") = false := by
    simp [hemail, hpw]
  have h2 := Nat.not_le.mpr hnl
  constructor
  · intro h3
    rw [login_ok compare writeOk db now email pw "" ip ua u h1 h2 hu h3 (Or.inl rfl)]
    exact ⟨rfl, rfl⟩
  · intro h3
    rw [login_bad_password compare writeOk db now email pw "" ip ua u h1 h2 hu h3]
    exact ⟨rfl, rfl, rfl⟩

/-- Witness for C6 amended: the stored email case with the correct secret. -/
theorem c6_amended_witness :
    ("admin@a.de" : String) ≠ "" ∧ ("pw" : String) ≠ "" ∧
    getRecentLoginAttempts dbFresh "admin@a.de" 200 < 5 ∧
    getUserByEmail dbFresh "admin@a.de" = some (joinUser dbFresh uA) ∧
    cmpEx "pw" (joinUser dbFresh uA).password_hash = true ∧
    (login cmpEx true dbFresh 200 "admin@a.de" "pw" "" "ip" "ua").success = true ∧
    (login cmpEx true dbFresh 200 "admin@a.de" "pw" "" "ip" "ua").status = 200 :=
  ⟨by decide, by decide, by decide, by decide, by decide,
   (c6_amended cmpEx true dbFresh 200 "admin@a.de" "pw" "ip" "ua" (joinUser dbFresh uA)
     (by decide) (by decide) (by decide) (by decide)).1 (by decide)⟩

/-- C10: `requireRole` answers HTTP 403 with a body that carries both the
declared `required_roles` list and the caller's `user_role`, and never falls
through to the downstream handler, whenever the authenticated user's role is
not in the declared set. -/
theorem c10_role_forbidden (roles : List String) (u : JoinedUser)
    (h : roles.contains u.role = false) :
    requireRole roles (some u) =
      RoleRes.forbidden 403 "Insufficient permissions" roles u.role ∧
    ∀ v, requireRole roles (some u) ≠ RoleRes.next v := by
  have h1 : requireRole roles (some u) =
      RoleRes.forbidden 403 "Insufficient permissions" roles u.role := by
    have hmem : u.role ∉ roles := by simpa using h
    simp [requireRole, hmem]
  refine ⟨h1, fun v => ?_⟩
  rw [h1]
  simp

/-- Witness for C10: a `therapeut` hitting an admin-only guard. -/
theorem c10_role_forbidden_witness :
    (["admin"] : List String).contains "therapeut" = false ∧
    requireRole ["admin"]
        (some ⟨3, 1, "T", "t@a.de", "hash-x", "therapeut", true, some "Praxis A"⟩) =
      RoleRes.forbidden 403 "Insufficient permissions" ["admin"] "therapeut" :=
  ⟨by decide,
   (c10_role_forbidden ["admin"]
     ⟨3, 1, "T", "t@a.de", "hash-x", "therapeut", true, some "Praxis A"⟩
     (by decide)).1⟩

/-- C7 counterexample: `admin@a.de` is a registered active user and
`alt@a.de` a deactivated one.  Adding a user as `Admin@a.de` (the same
email up to letter case) passes the duplicate check and creates a new user
row, and the same happens for `POST /api/auth/register-praxis`; an exact
duplicate of the deactivated user's email is not rejected by the duplicate
validation either — it fails only on the UNIQUE constraint and is answered
with status 500, not a validation error. -/
theorem c7_counterexample :
    "Admin@a.de".toList.map Char.toLower = "admin@a.de".toList ∧
    (addUserRoute hashEx dbWithInactive 1 "Neu" "Admin@a.de" "passwort123" "therapeut").success
      = true ∧
    (addUserRoute hashEx dbWithInactive 1 "Neu" "Admin@a.de" "passwort123" "therapeut").db.users.length
      = dbWithInactive.users.length + 1 ∧
    (registerPraxis hashEx dbWithInactive "Praxis B" "Neu" "Admin@a.de" "passwort123").success
      = true ∧
    (registerPraxis hashEx dbWithInactive "Praxis B" "Neu" "Admin@a.de" "passwort123").db.users.length
      = dbWithInactive.users.length + 1 ∧
    (addUserRoute hashEx dbWithInactive 1 "Neu" "alt@a.de" "passwort123" "therapeut").status
      = 500 ∧
    (registerPraxis hashEx dbWithInactive "Praxis B" "Neu" "alt@a.de" "passwort123").status
      = 500 := by
  decide

/-- C7 amended: both user-creating routes reject secrets shorter than 8
characters and emails that exactly (case-sensitively) match an existing
active user's email, each with a 400 validation error and an unchanged
database; duplicates that differ in letter case or belong to deactivated
users are not caught by this validation. -/
theorem c7_amended (hash : String → String) (db : DB) (adminPid : Nat)
    (pname aname aemail apw name email pw role : String) :
    (pname ≠ "" → aname ≠ "" → aemail ≠ "" → apw ≠ "" → apw.length < 8 →
      registerPraxis hash db pname aname aemail apw =
        ⟨400, some "Passwort muss mindestens 8 Zeichen lang sein", false, none, none, db⟩) ∧
    (pname ≠ "" → aname ≠ "" → aemail ≠ "" → apw ≠ "" → ¬ apw.length < 8 →
      emailRegexTest aemail = true → getPraxisByName db pname = none →
      (getUserByEmail db aemail).isSome = true →
      registerPraxis hash db pname aname aemail apw =
        ⟨400, some "E-Mail-Adresse bereits registriert", false, none, none, db⟩) ∧
    (name ≠ "" → email ≠ "" → pw ≠ "" → role ≠ "" →
      allowedAddRoles.contains role = true → pw.length < 8 →
      addUserRoute hash db adminPid name email pw role =
        ⟨400, some "Passwort muss mindestens 8 Zeichen lang sein", false, none, none, db⟩) ∧
    (name ≠ "" → email ≠ "" → pw ≠ "" → role ≠ "" →
      allowedAddRoles.contains role = true → ¬ pw.length < 8 →
      (getUserByEmail db email).isSome = true →
      addUserRoute hash db adminPid name email pw role =
        ⟨400, some "E-Mail-Adresse bereits registriert", false, none, none, db⟩) := by
  refine ⟨?_, ?_, ?_, ?_⟩
  · intro hp ha he hw hlen
    unfold registerPraxis
    rw [if_neg (by simp [hp, ha, he, hw]), if_pos hlen]
  · intro hp ha he hw hlen hre hpx hdup
    unfold registerPraxis
    rw [if_neg (by simp [hp, ha, he, hw]), if_neg hlen,
        if_neg (by simp [hre]), if_neg (by simp [hpx]), if_pos hdup]
  · intro hn he hw hr hrole hlen
    unfold addUserRoute
    rw [if_neg (by simp [hn, he, hw, hr]), if_neg (by rw [hrole]; decide), if_pos hlen]
  · intro hn he hw hr hrole hlen hdup
    unfold addUserRoute
    rw [if_neg (by simp [hn, he, hw, hr]), if_neg (by rw [hrole]; decide),
        if_neg hlen, if_pos hdup]

/-- Witness for C7 amended: an exact duplicate of the active user's email
is rejected by `POST /api/auth/add-user` with the validation error. -/
theorem c7_amended_witness :
    ("Neu" : String) ≠ "" ∧ ("admin@a.de" : String) ≠ "" ∧
    ("passwort123" : String) ≠ "" ∧ ("therapeut" : String) ≠ "" ∧
    allowedAddRoles.contains "therapeut" = true ∧
    ¬ ("passwort123" : String).length < 8 ∧
    (getUserByEmail dbWithInactive "admin@a.de").isSome = true ∧
    addUserRoute hashEx dbWithInactive 1 "Neu" "admin@a.de" "passwort123" "therapeut" =
      ⟨400, some "E-Mail-Adresse bereits registriert", false, none, none, dbWithInactive⟩ :=
  ⟨by decide, by decide, by decide, by decide, by decide, by decide, by decide,
   (c7_amended hashEx dbWithInactive 1 "x" "y" "z@z.de" "w" "Neu" "admin@a.de"
     "passwort123" "therapeut").2.2.2 (by decide) (by decide) (by decide) (by decide)
     (by decide) (by decide) (by decide)⟩

/-- C9: a login with correct email and secret but a praxis hint that does
not match the user's praxis is rejected 401 with the dedicated message
`Benutzer gehört nicht zu der angegebenen Praxis` (different from the
generic invalid-credentials text), a failed attempt is appended to the
ledger for that email and counted by the throttle window, and any identity
whose recent-failure count has reached 5 is answered with the 429 lockout. -/
theorem c9_praxis_hint (compare : String → String → Bool)
    (db : DB) (now : Nat) (email pw hint ip ua : String) (u : JoinedUser)
    (hemail : email ≠ "") (hpw : pw ≠ "")
    (hnl : getRecentLoginAttempts db email now < 5)
    (hu : getUserByEmail db email = some u)
    (hcmp : compare pw u.password_hash = true)
    (hhint : hint ≠ "")
    (hpn : u.praxis_name ≠ some hint) :
    (login compare true db now email pw hint ip ua).status = 401 ∧
    (login compare true db now email pw hint ip ua).errorMsg =
      some "Benutzer gehört nicht zu der angegebenen Praxis" ∧
    some "Benutzer gehört nicht zu der angegebenen Praxis" ≠
      some "Ungültige Anmeldedaten" ∧
    (login compare true db now email pw hint ip ua).db.login_attempts =
      db.login_attempts ++ [mkAttempt email false ip ua now] ∧
    getRecentLoginAttempts (login compare true db now email pw hint ip ua).db email now =
      getRecentLoginAttempts db email now + 1 ∧
    (∀ db2, 5 ≤ getRecentLoginAttempts db2 email now →
      (login compare true db2 now email pw hint ip ua).status = 429) := by
  have h1 : (email == "" || pw == "") = false := by
    simp [hemail, hpw]
  have h2 := Nat.not_le.mpr hnl
  have hlm := login_hint_mismatch compare true db now email pw hint ip ua u
    h1 h2 hu hcmp hhint hpn
  have hatt : (login compare true db now email pw hint ip ua).db.login_attempts =
      db.login_attempts ++ [mkAttempt email false ip ua now] := by
    rw [hlm]
    simp [createLoginAttempt]
  have hnew : isRecentFailure now email (mkAttempt email false ip ua now) = true := by
    simp [isRecentFailure, mkAttempt, windowMinutes]
  refine ⟨by rw [hlm], by rw [hlm], by simp, hatt, ?_, ?_⟩
  · rw [getRecentLoginAttempts, hatt, List.filter_append]
    simp [getRecentLoginAttempts, hnew]
  · intro db2 hlock2
    rw [login_locked compare true db2 now email pw hint ip ua h1 hlock2]

/-- Witness for C9: correct credentials with the wrong praxis hint. -/
theorem c9_praxis_hint_witness :
    ("admin@a.de" : String) ≠ "" ∧ ("pw" : String) ≠ "" ∧
    getRecentLoginAttempts dbFresh "admin@a.de" 200 < 5 ∧
    getUserByEmail dbFresh "admin@a.de" = some (joinUser dbFresh uA) ∧
    cmpEx "pw" (joinUser dbFresh uA).password_hash = true ∧
    ("Praxis B" : String) ≠ "" ∧
    (joinUser dbFresh uA).praxis_name ≠ some "Praxis B" ∧
    (login cmpEx true dbFresh 200 "admin@a.de" "pw" "Praxis B" "ip" "ua").errorMsg =
      some "Benutzer gehört nicht zu der angegebenen Praxis" :=
  ⟨by decide, by decide, by decide, by decide, by decide, by decide, by decide,
   (c9_praxis_hint cmpEx dbFresh 200 "admin@a.de" "pw" "Praxis B" "ip" "ua"
     (joinUser dbFresh uA) (by decide) (by decide) (by decide) (by decide)
     (by decide) (by decide) (by decide)).2.1⟩

/-- C8: `createLoginAttempt` never fails the surrounding flow — when the
INSERT fails it returns normally with the database unchanged and the error
surfaced as a `console.warn` message; when it succeeds it appends exactly
one row, preserving every prior entry; and the externally visible outcome
of `POST /api/auth/login` (status, success flag, error body) is the same
whether the ledger write succeeds or fails.  The login flow only ever
appends to `login_attempts`. -/
theorem c8_ledger_append_only (compare : String → String → Bool) (db : DB)
    (now : Nat) (email password praxisHint ip ua : String) (s : Bool) :
    (createLoginAttempt false db email s ip ua now).db = db ∧
    (createLoginAttempt false db email s ip ua now).warnings =
      ["Fehler beim Speichern des Login-Versuchs:"] ∧
    (createLoginAttempt true db email s ip ua now).db.login_attempts =
      db.login_attempts ++ [mkAttempt email s ip ua now] ∧
    (login compare false db now email password praxisHint ip ua).status =
      (login compare true db now email password praxisHint ip ua).status ∧
    (login compare false db now email password praxisHint ip ua).success =
      (login compare true db now email password praxisHint ip ua).success ∧
    (login compare false db now email password praxisHint ip ua).errorMsg =
      (login compare true db now email password praxisHint ip ua).errorMsg ∧
    (login compare false db now email password praxisHint ip ua).db = db ∧
    (∃ rest, (login compare true db now email password praxisHint ip ua).db.login_attempts =
      db.login_attempts ++ rest) := by
  refine ⟨rfl, rfl, by simp [createLoginAttempt], ?_⟩
  by_cases h1 : (email == "" || password == "") = true
  · rw [login_bad_body compare false db now email password praxisHint ip ua h1,
        login_bad_body compare true db now email password praxisHint ip ua h1]
    exact ⟨rfl, rfl, rfl, rfl, [], by simp⟩
  · have h1' : (email == "" || password == "") = false := by simpa using h1
    by_cases h2 : 5 ≤ getRecentLoginAttempts db email now
    · rw [login_locked compare false db now email password praxisHint ip ua h1' h2,
          login_locked compare true db now email password praxisHint ip ua h1' h2]
      exact ⟨rfl, rfl, rfl, rfl, [mkAttempt email false ip ua now],
        by simp [createLoginAttempt]⟩
    · cases hu : getUserByEmail db email with
      | none =>
        rw [login_no_user compare false db now email password praxisHint ip ua h1' h2 hu,
            login_no_user compare true db now email password praxisHint ip ua h1' h2 hu]
        exact ⟨rfl, rfl, rfl, rfl, [mkAttempt email false ip ua now],
          by simp [createLoginAttempt]⟩
      | some u =>
        by_cases h3 : compare password u.password_hash = true
        · by_cases h4 : (praxisHint != "" &&
            (match u.praxis_name with
             | some pn => pn != praxisHint
             | none => true)) = true
          · rw [login_hint_cond_true compare false db now email password praxisHint ip ua u
                  h1' h2 hu h3 h4,
                login_hint_cond_true compare true db now email password praxisHint ip ua u
                  h1' h2 hu h3 h4]
            exact ⟨rfl, rfl, rfl, rfl, [mkAttempt email false ip ua now],
              by simp [createLoginAttempt]⟩
          · have h4' : (praxisHint != "" &&
                (match u.praxis_name with
                 | some pn => pn != praxisHint
                 | none => true)) = false := by simpa using h4
            rw [login_hint_cond_false compare false db now email password praxisHint ip ua u
                  h1' h2 hu h3 h4',
                login_hint_cond_false compare true db now email password praxisHint ip ua u
                  h1' h2 hu h3 h4']
            exact ⟨rfl, rfl, rfl, rfl, [mkAttempt email true ip ua now],
              by simp [createLoginAttempt]⟩
        · have h3' : compare password u.password_hash = false := by simpa using h3
          rw [login_bad_password compare false db now email password praxisHint ip ua u
                h1' h2 hu h3',
              login_bad_password compare true db now email password praxisHint ip ua u
                h1' h2 hu h3']
          exact ⟨rfl, rfl, rfl, rfl, [mkAttempt email false ip ua now],
            by simp [createLoginAttempt]⟩

/-- C2 (modelled from the spec, `POST /auth/change-secret` is absent from
`src/`): after user `U` successfully changes their secret while holding
session `S1`, every other session `S2` of `U` is gone from the store, so
its next validation answers `SessionInvalid`. -/
theorem c2_change_secret_revokes (compare : String → String → Bool)
    (hash : String → String) (users : List UserRow) (st : SessStore)
    (s1 s2 uid : Nat) (oldSecret newSecret : String) (u : UserRow)
    (h1 : st.recs.find? (fun r => r.sid == s1) = some ⟨s1, uid⟩)
    (hu : users.find? (fun v => v.id == uid && v.is_active) = some u)
    (hcmp : compare oldSecret u.password_hash = true)
    (hs2 : s2 ≠ s1)
    (hbound : ∀ r ∈ st.recs, r.sid = s2 → r.user_id = uid) :
    (changeSecret compare hash users st s1 oldSecret newSecret).success = true ∧
    validateSession (changeSecret compare hash users st s1 oldSecret newSecret).store s2 =
      ValidateRes.sessionInvalid := by
  have hval : validateSession st s1 = ValidateRes.ok ⟨s1, uid⟩ := by
    unfold validateSession
    rw [h1]
  have huid : u.id = uid := by
    have hpred := List.find?_some hu
    simp only [Bool.and_eq_true, beq_iff_eq] at hpred
    exact hpred.1
  have hcs : changeSecret compare hash users st s1 oldSecret newSecret =
      ⟨true,
       users.map (fun v =>
         if v.id == u.id then { v with password_hash := hash newSecret } else v),
       ⟨st.recs.filter (fun s => s.user_id != u.id || s.sid == s1)⟩⟩ := by
    unfold changeSecret
    rw [hval]
    simp only []
    rw [hu]
    simp [hcmp]
  refine ⟨by rw [hcs], ?_⟩
  rw [hcs]
  unfold validateSession
  have hnone : (st.recs.filter (fun s => s.user_id != u.id || s.sid == s1)).find?
      (fun r => r.sid == s2) = none := by
    rw [List.find?_eq_none]
    intro x hx hsid
    rw [List.mem_filter] at hx
    obtain ⟨hmem, hcond⟩ := hx
    have hx2 : x.sid = s2 := by simpa using hsid
    have hux : x.user_id = uid := hbound x hmem hx2
    rw [hux, huid, hx2] at hcond
    simp [hs2] at hcond
  rw [hnone]

/-- Witness for C2: user 1 holds sessions 10 and 20, changes the secret via
session 10; session 20 is invalid afterwards. -/
theorem c2_change_secret_revokes_witness :
    (⟨[⟨10, 1⟩, ⟨20, 1⟩]⟩ : SessStore).recs.find? (fun r => r.sid == 10) =
      some ⟨10, 1⟩ ∧
    [uA].find? (fun v => v.id == 1 && v.is_active) = some uA ∧
    cmpEx "pw" uA.password_hash = true ∧
    (20 : Nat) ≠ 10 ∧
    validateSession
      (changeSecret cmpEx hashEx [uA] ⟨[⟨10, 1⟩, ⟨20, 1⟩]⟩ 10 "pw" "neuesGeheim").store 20 =
      ValidateRes.sessionInvalid :=
  ⟨by decide, by decide, by decide, by decide,
   (c2_change_secret_revokes cmpEx hashEx [uA] ⟨[⟨10, 1⟩, ⟨20, 1⟩]⟩ 10 20 1
     "pw" "neuesGeheim" uA (by decide) (by decide) (by decide) (by decide)
     (by decide)).2⟩

end Praxida
